import Mathlib

/-!
Verification development for the computational equivalence engine
(`src/computational_equivalence_engine.py`).

The Python module is embedded shallowly: dataclasses become structures,
floats become rationals (all numeric literals in the source are short
decimal fractions, exactly representable), the mutable `analysis_log`
becomes an explicit list of lines returned next to each step's value, and
the one fallible spot (the division in `_objectives_substantially_overlap`,
which raises ZeroDivisionError when both token sets are empty) is modelled
with `Option`: `none` stands for the raised exception, propagated by the
caller exactly as Python propagates it.
-/

namespace CEE

/-- The `EquivalenceLevel` enum: the eight classification levels. -/
inductive EquivalenceLevel where
  | TOTAL
  | FUNCTIONAL_STRONG
  | FUNCTIONAL_STANDARD
  | FUNCTIONAL_WEAK
  | PARTIAL_STRONG
  | PARTIAL_STANDARD
  | PARTIAL_WEAK
  | NO_DIRECT
deriving DecidableEq, Repr

/-- The `LegalConcept` dataclass. `constituent_elements` is a Python list of
strings (the source forms sets from it at use sites). -/
structure LegalConcept where
  name : String
  jurisdiction : String
  constituent_elements : List String
  regulatory_objective : String
deriving DecidableEq, Repr

/-- The `FunctionalTest` dataclass. `reliability_rate` is a float in the
source, embedded as a rational. -/
structure FunctionalTest where
  fact_pattern : String
  reliability_rate : ℚ
  procedural_friction : String
  iteration_threshold : Int
deriving DecidableEq, Repr

/-- The `EquivalenceResult` dataclass. -/
structure EquivalenceResult where
  distance_score : ℚ
  level : EquivalenceLevel
  confidence_interval : String
  rationale : String
  step_reached : Int
deriving DecidableEq, Repr

/-- Round a rational to the nearest integer, ties to even — the rounding of
Python's fixed-point float formatting, used here to model `.1f`. -/
def roundHalfEven (q : ℚ) : ℤ :=
  let f := ⌊q⌋
  if q - f < 1/2 then f
  else if 1/2 < q - f then f + 1
  else if f % 2 = 0 then f else f + 1

/-- Models Python's "{x:.1f}" formatting (one digit after the point). -/
def format1f (q : ℚ) : String :=
  let n := roundHalfEven (q * 10)
  let sign := if n < 0 then "-" else ""
  let m := n.natAbs
  sign ++ toString (m / 10) ++ "." ++ toString (m % 10)

/-- Models Python's repr of the engine's score floats inside f-strings: every
score in the source is a multiple of 0.05, repr prints one or two decimals
with trailing zeros trimmed down to one decimal place. -/
def formatScore (q : ℚ) : String :=
  let n := roundHalfEven (q * 100)
  let sign := if n < 0 then "-" else ""
  let m := n.natAbs
  let frac := m % 100
  if frac % 10 = 0 then sign ++ toString (m / 100) ++ "." ++ toString (frac / 10)
  else sign ++ toString (m / 100) ++ "." ++ (if frac < 10 then "0" else "") ++ toString frac

/-- Python's str() of a bool, as interpolated by f-strings. -/
def pyBool (b : Bool) : String := if b then "True" else "False"

/-- Python `str.lower()`: lowercase every character. Implemented structurally
over the string's character list so that it evaluates by kernel reduction
(`String.toLower` itself is defined by well-founded recursion). -/
def pyLower (s : String) : String := String.mk (s.data.map Char.toLower)

/-- Python `str.split()` with no argument: split on whitespace, dropping the
empty tokens. Implemented structurally over the character list so that it
evaluates by kernel reduction. -/
def pySplit (s : String) : List String :=
  ((s.data.splitOnP Char.isWhitespace).map fun l => String.mk l).filter (fun t => t ≠ "")

/-- Helper `_objectives_substantially_overlap`: tokenize both objectives into
lowercase token sets and compare |intersection| / max(|A|, |B|) with 0.5.
Returns `none` where Python raises ZeroDivisionError: both token sets empty,
so `max(len(keywords_a), len(keywords_b))` is 0. -/
def objectives_substantially_overlap (obj_a obj_b : String) : Option Bool :=
  let keywords_a := (pySplit (pyLower obj_a)).toFinset
  let keywords_b := (pySplit (pyLower obj_b)).toFinset
  if max keywords_a.card keywords_b.card = 0 then none
  else
    let overlap : ℚ :=
      ((keywords_a ∩ keywords_b).card : ℚ) / ((max keywords_a.card keywords_b.card : ℕ) : ℚ)
    some (decide (overlap > 1/2))

/-- The dict returned by `_step1_core_feature_filter`, as a sum: the
"NO_DIRECT" dict carries classification, provisional score and rationale;
the "PARTIAL" dict additionally carries the morphology and teleology data. -/
inductive Step1Result where
  | NO_DIRECT (provisional_score : ℚ) (rationale : String)
  | PARTIAL (provisional_score : ℚ) (morphology_match : ℕ) (teleology_match : Bool)
      (rationale : String)
deriving DecidableEq, Repr

/-- GATE 1 `_step1_core_feature_filter`. The second component is the list of
lines the call appends to `analysis_log`; the first is `none` when the
teleology check raises (only the header line is logged in that case, since
Python appends the overlap lines after computing `teleology_match`). The
teleology check short-circuits: the overlap heuristic only runs when the
lowercased objectives differ, exactly as Python's `or` evaluates. -/
def step1_core_feature_filter (concept_a concept_b : LegalConcept) :
    Option Step1Result × List String :=
  let log0 := ["=== STEP 1: PARTIAL EQUIVALENCY TEST ==="]
  let morphology_match :=
    (concept_a.constituent_elements.toFinset ∩ concept_b.constituent_elements.toFinset).card
  let teleology : Option Bool :=
    if pyLower concept_a.regulatory_objective = pyLower concept_b.regulatory_objective
    then some true
    else objectives_substantially_overlap concept_a.regulatory_objective
      concept_b.regulatory_objective
  match teleology with
  | none => (none, log0)
  | some teleology_match =>
    let log1 := log0 ++
      ["Morphological overlap: " ++ toString morphology_match ++ " shared elements",
       "Teleological match: " ++ pyBool teleology_match]
    if morphology_match = 0 ∧ teleology_match = false then
      (some (.NO_DIRECT 3
        "Concepts share neither structural elements nor regulatory objectives."),
       log1 ++ ["RESULT: No basis for comparison (Category Error)"])
    else
      let scoreStrength : ℚ × String :=
        if morphology_match ≥ 3 then (2, "Strong")
        else if morphology_match ≥ 1 then (2.5, "Standard")
        else (2.9, "Weak")
      (some (.PARTIAL scoreStrength.1 morphology_match teleology_match
        (scoreStrength.2 ++ " feature overlap detected (" ++ toString morphology_match ++
          " structural + teleological alignment)")),
       log1 ++
        ["RESULT: " ++ scoreStrength.2 ++ " Partial Equivalent (provisional d = " ++
          formatScore scoreStrength.1 ++ ")",
         "→ Proceeding to Step 2"])

/-- The dict returned by `_step2_same_outcome_filter`, as a sum: the diverge
dict carries only a rationale; the converge dict carries the functional
score, strength, interval and rationale. -/
inductive Step2Result where
  | diverge (rationale : String)
  | converge (functional_score : ℚ) (strength : String) (interval : String)
      (rationale : String)
deriving DecidableEq, Repr

/-- GATE 2 `_step2_same_outcome_filter`. Second component: the lines the call
appends to `analysis_log`. Convergence requires `reliability_rate ≥ 0.85`;
the converged score follows the source's first-match ladder. -/
def step2_same_outcome_filter (functional_test : FunctionalTest) :
    Step2Result × List String :=
  let pct := format1f (functional_test.reliability_rate * 100)
  let log0 :=
    ["\n=== STEP 2: FUNCTIONAL EQUIVALENCY TEST ===",
     "Fact pattern: " ++ functional_test.fact_pattern,
     "Reliability rate: " ++ pct ++ "%",
     "Procedural friction: " ++ functional_test.procedural_friction]
  if functional_test.reliability_rate < 0.85 then
    (.diverge ("Reliability rate (" ++ pct ++ "%) below functional threshold"),
     log0 ++ ["RESULT: Outcomes diverge (reliability < 85%)"])
  else
    let sc : ℚ × String × String :=
      if functional_test.reliability_rate > 0.95 ∧
          functional_test.procedural_friction = "low" ∧
          functional_test.iteration_threshold = 1 then
        (0.15, "Strong (Constitutional)", "0.1-0.2")
      else if functional_test.reliability_rate > 0.95 ∧
          functional_test.procedural_friction = "high" then
        (0.35, "Strong (Plenary)", "0.3-0.4")
      else if functional_test.reliability_rate > 0.90 then
        (1, "Standard", "0.5-1.4")
      else
        (1.7, "Weak", "1.5-1.9")
    (.converge sc.1 sc.2.1 sc.2.2
      (sc.2.1 ++ " functional match (reliability " ++ pct ++ "%, " ++
        functional_test.procedural_friction ++ " friction)"),
     log0 ++
      ["RESULT: Outcomes converge - " ++ sc.2.1 ++ " Functional Equivalent (d = " ++
        formatScore sc.1 ++ ")",
       "→ Proceeding to Step 3"])

/-- The dict returned by `_step3_perfect_substitution_filter`. -/
structure Step3Result where
  perfect_substitution : Bool
  rationale : String
deriving DecidableEq, Repr

/-- GATE 3 `_step3_perfect_substitution_filter`. Second component: the lines
the call appends to `analysis_log`. `objectives_identical` is exact,
case-sensitive string equality (stricter than Gate 1's check). -/
def step3_perfect_substitution_filter (concept_a concept_b : LegalConcept)
    (functional_test : FunctionalTest) : Step3Result × List String :=
  let all_elements_match : Bool :=
    concept_a.constituent_elements.toFinset = concept_b.constituent_elements.toFinset
  let objectives_identical : Bool :=
    concept_a.regulatory_objective = concept_b.regulatory_objective
  let zero_friction : Bool := functional_test.procedural_friction = "low"
  let log0 :=
    ["\n=== STEP 3: TOTAL EQUIVALENCY TEST ===",
     "All elements identical: " ++ pyBool all_elements_match,
     "Objectives identical: " ++ pyBool objectives_identical,
     "Zero procedural friction: " ++ pyBool zero_friction]
  if all_elements_match && objectives_identical && zero_friction then
    (⟨true, "Concepts are superimposable - perfect one-to-one match in all dimensions"⟩,
     log0 ++ ["RESULT: Perfect substitution confirmed (Total Equivalent)"])
  else
    (⟨false, "Concepts achieve same outcome but remain doctrinally distinct"⟩,
     log0 ++ ["RESULT: Doctrinal divergence detected (not Total Equivalent)"])

/-- `_finalize_partial_equivalent`: map a provisional score to a Partial
level and interval, add the fixed suffix, record step 2. -/
def finalize_partial_equivalent (score : ℚ) (rationale : String) : EquivalenceResult :=
  let li : EquivalenceLevel × String :=
    if score ≤ 2.1 then (.PARTIAL_STRONG, "2.0-2.1")
    else if score ≤ 2.7 then (.PARTIAL_STANDARD, "2.2-2.7")
    else (.PARTIAL_WEAK, "2.8-2.9")
  { distance_score := score
    level := li.1
    confidence_interval := "d = " ++ li.2
    rationale := rationale ++ " (Structural overlap but functional divergence)"
    step_reached := 2 }

/-- `_finalize_functional_equivalent`: map a functional score to a Functional
level and interval, add the fixed suffix, record step 3. -/
def finalize_functional_equivalent (score : ℚ) (rationale : String) : EquivalenceResult :=
  let li : EquivalenceLevel × String :=
    if score ≤ 0.4 then (.FUNCTIONAL_STRONG, "0.1-0.4")
    else if score ≤ 1.4 then (.FUNCTIONAL_STANDARD, "0.5-1.4")
    else (.FUNCTIONAL_WEAK, "1.5-1.9")
  { distance_score := score
    level := li.1
    confidence_interval := "d = " ++ li.2
    rationale := rationale ++ " (Same practical outcome despite formal differences)"
    step_reached := 3 }

/-- `analyze`, with the engine's `analysis_log` made explicit: the second
component is the log's content after the call (the log is reset on entry, so
it is exactly the lines this call appended). The first component is `none`
when the Python call raises ZeroDivisionError inside Gate 1; the log then
holds the lines appended before the raise. -/
def analyzeWithLog (concept_a concept_b : LegalConcept)
    (functional_test : Option FunctionalTest) : Option EquivalenceResult × List String :=
  let s1 := step1_core_feature_filter concept_a concept_b
  match s1.1 with
  | none => (none, s1.2)
  | some (.NO_DIRECT _ rationale) =>
      (some { distance_score := 3
              level := .NO_DIRECT
              confidence_interval := "d = 3.0"
              rationale := rationale
              step_reached := 1 }, s1.2)
  | some (.PARTIAL partial_score _ _ rationale1) =>
    match functional_test with
    | none => (some (finalize_partial_equivalent partial_score rationale1), s1.2)
    | some ft =>
      let s2 := step2_same_outcome_filter ft
      match s2.1 with
      | .diverge rationale2 =>
          (some (finalize_partial_equivalent partial_score rationale2), s1.2 ++ s2.2)
      | .converge functional_score _ _ rationale2 =>
        let s3 := step3_perfect_substitution_filter concept_a concept_b ft
        if s3.1.perfect_substitution then
          (some { distance_score := 0
                  level := .TOTAL
                  confidence_interval := "d = 0.0"
                  rationale := s3.1.rationale
                  step_reached := 3 }, s1.2 ++ s2.2 ++ s3.2)
        else
          (some (finalize_functional_equivalent functional_score rationale2),
           s1.2 ++ s2.2 ++ s3.2)

/-- `analyze`'s returned value: `some` result, or `none` for the raised
ZeroDivisionError. -/
def analyze (concept_a concept_b : LegalConcept)
    (functional_test : Option FunctionalTest) : Option EquivalenceResult :=
  (analyzeWithLog concept_a concept_b functional_test).1

/-- `get_analysis_log`, over the explicit log state. -/
def get_analysis_log (log : List String) : String :=
  String.intercalate "\n" log

/-- `calculate_convergence_vector`: the delta of two distance scores with a
formatted interpretation. -/
def calculate_convergence_vector (d_t1 d_t2 : ℚ) : ℚ × String :=
  let v_legal := d_t1 - d_t2
  if v_legal > 0 then
    let magnitude := if |v_legal| ≥ 1.5 then "High" else "Incremental"
    (v_legal, "Legal Convergence (+" ++ format1f v_legal ++ ") - " ++ magnitude ++
      " harmonization")
  else if v_legal < 0 then
    let magnitude := if |v_legal| ≥ 1.5 then "High" else "Incremental"
    (v_legal, "Legal Divergence (" ++ format1f v_legal ++ ") - " ++ magnitude ++ " drift")
  else
    (v_legal, "Stable Equivalence (0.0) - No net change or Feature Shift")

/-- The substring-containment property used to state the convergence-vector
claims: `sub` occurs contiguously inside `s`. -/
def ContainsStr (s sub : String) : Prop :=
  ∃ p q : String, s = p ++ sub ++ q

/-- The distance sub-range the specification assigns to each level (the §4
tables): used to state the C1 invariant. -/
def scoreInLevelRange : EquivalenceLevel → ℚ → Prop
  | .NO_DIRECT, d => d = 3
  | .TOTAL, d => d = 0
  | .PARTIAL_STRONG, d => 2 ≤ d ∧ d ≤ 2.1
  | .PARTIAL_STANDARD, d => 2.2 ≤ d ∧ d ≤ 2.7
  | .PARTIAL_WEAK, d => 2.8 ≤ d ∧ d ≤ 2.9
  | .FUNCTIONAL_STRONG, d => 0.1 ≤ d ∧ d ≤ 0.4
  | .FUNCTIONAL_STANDARD, d => 0.5 ≤ d ∧ d ≤ 1.4
  | .FUNCTIONAL_WEAK, d => 1.5 ≤ d ∧ d ≤ 1.9

/-! ### Helper lemmas about the gates -/

lemma step1_tier (c : ℕ) :
    (if c ≥ 3 then ((2 : ℚ), "Strong") else if c ≥ 1 then (2.5, "Standard")
      else (2.9, "Weak")).1 =
    (if 3 ≤ c then (2 : ℚ) else if 1 ≤ c then 2.5 else 2.9) := by
  by_cases h3 : 3 ≤ c
  · simp [ge_iff_le, h3]
  · by_cases h1 : 1 ≤ c
    · simp [ge_iff_le, h3, h1]
    · simp [ge_iff_le, h3, h1]

/-- Inversion for Gate 1's PARTIAL output: the stored morphology count is the
intersection cardinality and the provisional score is its tier. -/
lemma step1_partial_inv (a b : LegalConcept) (s : ℚ) (m : ℕ) (t : Bool) (rat : String)
    (h : (step1_core_feature_filter a b).1 = some (.PARTIAL s m t rat)) :
    m = (a.constituent_elements.toFinset ∩ b.constituent_elements.toFinset).card ∧
    s = (if 3 ≤ m then (2 : ℚ) else if 1 ≤ m then 2.5 else 2.9) := by
  unfold step1_core_feature_filter at h
  split at h
  · dsimp only at h
    rw [if_neg (by simp)] at h
    simp only [Option.some.injEq, Step1Result.PARTIAL.injEq] at h
    refine ⟨h.2.1.symm, ?_⟩
    rw [← h.2.1, ← h.1]
    exact step1_tier _
  · dsimp only at h
    rcases hov : objectives_substantially_overlap a.regulatory_objective
        b.regulatory_objective with _ | ov
    · rw [hov] at h
      simp at h
    · rw [hov] at h
      dsimp only at h
      split at h
      · simp at h
      · simp only [Option.some.injEq, Step1Result.PARTIAL.injEq] at h
        refine ⟨h.2.1.symm, ?_⟩
        rw [← h.2.1, ← h.1]
        exact step1_tier _


lemma step2_diverge (ft : FunctionalTest) (h : ft.reliability_rate < 0.85) :
    (step2_same_outcome_filter ft).1 =
      .diverge ("Reliability rate (" ++ format1f (ft.reliability_rate * 100) ++
        "%) below functional threshold") := by
  unfold step2_same_outcome_filter
  dsimp only
  rw [if_pos h]

lemma step2_c1 (ft : FunctionalTest) (h : ¬ ft.reliability_rate < 0.85)
    (h1 : ft.reliability_rate > 0.95 ∧ ft.procedural_friction = "low" ∧
      ft.iteration_threshold = 1) :
    ∃ rat, (step2_same_outcome_filter ft).1 =
      .converge 0.15 "Strong (Constitutional)" "0.1-0.2" rat := by
  unfold step2_same_outcome_filter
  dsimp only
  rw [if_neg h, if_pos h1]
  exact ⟨_, rfl⟩

lemma step2_c2 (ft : FunctionalTest) (h : ¬ ft.reliability_rate < 0.85)
    (h1 : ¬ (ft.reliability_rate > 0.95 ∧ ft.procedural_friction = "low" ∧
      ft.iteration_threshold = 1))
    (h2 : ft.reliability_rate > 0.95 ∧ ft.procedural_friction = "high") :
    ∃ rat, (step2_same_outcome_filter ft).1 =
      .converge 0.35 "Strong (Plenary)" "0.3-0.4" rat := by
  unfold step2_same_outcome_filter
  dsimp only
  rw [if_neg h, if_neg h1, if_pos h2]
  exact ⟨_, rfl⟩

lemma step2_c3 (ft : FunctionalTest) (h : ¬ ft.reliability_rate < 0.85)
    (h1 : ¬ (ft.reliability_rate > 0.95 ∧ ft.procedural_friction = "low" ∧
      ft.iteration_threshold = 1))
    (h2 : ¬ (ft.reliability_rate > 0.95 ∧ ft.procedural_friction = "high"))
    (h3 : ft.reliability_rate > 0.90) :
    ∃ rat, (step2_same_outcome_filter ft).1 =
      .converge 1 "Standard" "0.5-1.4" rat := by
  unfold step2_same_outcome_filter
  dsimp only
  rw [if_neg h, if_neg h1, if_neg h2, if_pos h3]
  exact ⟨_, rfl⟩

lemma step2_c4 (ft : FunctionalTest) (h : ¬ ft.reliability_rate < 0.85)
    (h1 : ¬ (ft.reliability_rate > 0.95 ∧ ft.procedural_friction = "low" ∧
      ft.iteration_threshold = 1))
    (h2 : ¬ (ft.reliability_rate > 0.95 ∧ ft.procedural_friction = "high"))
    (h3 : ¬ ft.reliability_rate > 0.90) :
    ∃ rat, (step2_same_outcome_filter ft).1 =
      .converge 1.7 "Weak" "1.5-1.9" rat := by
  unfold step2_same_outcome_filter
  dsimp only
  rw [if_neg h, if_neg h1, if_neg h2, if_neg h3]
  exact ⟨_, rfl⟩

lemma step3_perfect (a b : LegalConcept) (ft : FunctionalTest)
    (h1 : a.constituent_elements.toFinset = b.constituent_elements.toFinset)
    (h2 : a.regulatory_objective = b.regulatory_objective)
    (h3 : ft.procedural_friction = "low") :
    (step3_perfect_substitution_filter a b ft).1 =
      ⟨true, "Concepts are superimposable - perfect one-to-one match in all dimensions"⟩ := by
  unfold step3_perfect_substitution_filter
  dsimp only
  rw [if_pos (by simp [h1, h2, h3])]

lemma step3_not_perfect_of_obj_ne (a b : LegalConcept) (ft : FunctionalTest)
    (h2 : a.regulatory_objective ≠ b.regulatory_objective) :
    (step3_perfect_substitution_filter a b ft).1 =
      ⟨false, "Concepts achieve same outcome but remain doctrinally distinct"⟩ := by
  unfold step3_perfect_substitution_filter
  dsimp only
  rw [if_neg (by simp [h2])]


lemma analyze_no_direct (a b : LegalConcept) (sc : ℚ) (rat : String)
    (h : (step1_core_feature_filter a b).1 = some (.NO_DIRECT sc rat))
    (ft : Option FunctionalTest) :
    analyze a b ft = some
      { distance_score := 3, level := .NO_DIRECT, confidence_interval := "d = 3.0",
        rationale := rat, step_reached := 1 } := by
  unfold analyze analyzeWithLog
  dsimp only
  rw [h]

lemma analyze_partial_no_ft (a b : LegalConcept) (s : ℚ) (m : ℕ) (t : Bool) (rat : String)
    (h : (step1_core_feature_filter a b).1 = some (.PARTIAL s m t rat)) :
    analyze a b none = some (finalize_partial_equivalent s rat) := by
  unfold analyze analyzeWithLog
  dsimp only
  rw [h]

lemma analyze_diverge (a b : LegalConcept) (s : ℚ) (m : ℕ) (t : Bool) (rat : String)
    (ft : FunctionalTest) (rat2 : String)
    (h : (step1_core_feature_filter a b).1 = some (.PARTIAL s m t rat))
    (h2 : (step2_same_outcome_filter ft).1 = .diverge rat2) :
    analyze a b (some ft) = some (finalize_partial_equivalent s rat2) := by
  unfold analyze analyzeWithLog
  dsimp only
  rw [h]
  dsimp only
  rw [h2]

lemma analyze_total (a b : LegalConcept) (s : ℚ) (m : ℕ) (t : Bool) (rat : String)
    (ft : FunctionalTest) (fs : ℚ) (st iv rat2 : String) (rat3 : String)
    (h : (step1_core_feature_filter a b).1 = some (.PARTIAL s m t rat))
    (h2 : (step2_same_outcome_filter ft).1 = .converge fs st iv rat2)
    (h3 : (step3_perfect_substitution_filter a b ft).1 = ⟨true, rat3⟩) :
    analyze a b (some ft) = some
      { distance_score := 0, level := .TOTAL, confidence_interval := "d = 0.0",
        rationale := rat3, step_reached := 3 } := by
  unfold analyze analyzeWithLog
  dsimp only
  rw [h]
  dsimp only
  rw [h2]
  dsimp only
  rw [h3]
  simp

lemma analyze_functional (a b : LegalConcept) (s : ℚ) (m : ℕ) (t : Bool) (rat : String)
    (ft : FunctionalTest) (fs : ℚ) (st iv rat2 : String) (rat3 : String)
    (h : (step1_core_feature_filter a b).1 = some (.PARTIAL s m t rat))
    (h2 : (step2_same_outcome_filter ft).1 = .converge fs st iv rat2)
    (h3 : (step3_perfect_substitution_filter a b ft).1 = ⟨false, rat3⟩) :
    analyze a b (some ft) = some (finalize_functional_equivalent fs rat2) := by
  unfold analyze analyzeWithLog
  dsimp only
  rw [h]
  dsimp only
  rw [h2]
  dsimp only
  rw [h3]
  simp


lemma step1_no_direct_inv (a b : LegalConcept) (sc : ℚ) (rat : String)
    (h : (step1_core_feature_filter a b).1 = some (.NO_DIRECT sc rat)) :
    sc = 3 ∧ rat = "Concepts share neither structural elements nor regulatory objectives." := by
  unfold step1_core_feature_filter at h
  split at h
  · dsimp only at h
    rw [if_neg (by simp)] at h
    simp at h
  · dsimp only at h
    rcases hov : objectives_substantially_overlap a.regulatory_objective
        b.regulatory_objective with _ | ov
    · rw [hov] at h
      simp at h
    · rw [hov] at h
      dsimp only at h
      split at h
      · simp only [Option.some.injEq, Step1Result.NO_DIRECT.injEq] at h
        exact ⟨h.1.symm, h.2.symm⟩
      · simp at h

lemma step1_none_analyze (a b : LegalConcept) (ft : Option FunctionalTest)
    (h : (step1_core_feature_filter a b).1 = none) :
    analyze a b ft = none := by
  unfold analyze analyzeWithLog
  dsimp only
  rw [h]

lemma step1_cases (a b : LegalConcept) :
    (step1_core_feature_filter a b).1 = none ∨
    (∃ rat, (step1_core_feature_filter a b).1 = some (.NO_DIRECT 3 rat)) ∨
    (∃ s m t rat, (step1_core_feature_filter a b).1 = some (.PARTIAL s m t rat) ∧
      (s = 2 ∨ s = 2.5 ∨ s = 2.9)) := by
  rcases hv : (step1_core_feature_filter a b).1 with _ | v
  · exact Or.inl rfl
  · rcases v with ⟨sc, rat⟩ | ⟨s, m, t, rat⟩
    · obtain ⟨h3, -⟩ := step1_no_direct_inv a b sc rat hv
      exact Or.inr (Or.inl ⟨rat, by rw [h3]⟩)
    · obtain ⟨-, hs⟩ := step1_partial_inv a b s m t rat hv
      refine Or.inr (Or.inr ⟨s, m, t, rat, rfl, ?_⟩)
      rw [hs]
      by_cases h3 : 3 ≤ m
      · simp [h3]
      · by_cases h1 : 1 ≤ m
        · simp [h3, h1]
        · simp [h3, h1]

lemma step2_converge_inv (ft : FunctionalTest) (fs : ℚ) (st iv rat : String)
    (h : (step2_same_outcome_filter ft).1 = .converge fs st iv rat) :
    fs = 0.15 ∨ fs = 0.35 ∨ fs = 1 ∨ fs = 1.7 := by
  unfold step2_same_outcome_filter at h
  dsimp only at h
  split at h
  · simp at h
  · split at h
    · simp only [Step2Result.converge.injEq] at h
      exact Or.inl h.1.symm
    · split at h
      · simp only [Step2Result.converge.injEq] at h
        exact Or.inr (Or.inl h.1.symm)
      · split at h
        · simp only [Step2Result.converge.injEq] at h
          exact Or.inr (Or.inr (Or.inl h.1.symm))
        · simp only [Step2Result.converge.injEq] at h
          exact Or.inr (Or.inr (Or.inr h.1.symm))


lemma fpe_strong (rat : String) :
    finalize_partial_equivalent 2 rat =
      ⟨2, .PARTIAL_STRONG, "d = 2.0-2.1",
        rat ++ " (Structural overlap but functional divergence)", 2⟩ := by
  unfold finalize_partial_equivalent
  rw [if_pos (by norm_num)]
  rfl

lemma fpe_standard (rat : String) :
    finalize_partial_equivalent 2.5 rat =
      ⟨2.5, .PARTIAL_STANDARD, "d = 2.2-2.7",
        rat ++ " (Structural overlap but functional divergence)", 2⟩ := by
  unfold finalize_partial_equivalent
  rw [if_neg (by norm_num), if_pos (by norm_num)]
  rfl

lemma fpe_weak (rat : String) :
    finalize_partial_equivalent 2.9 rat =
      ⟨2.9, .PARTIAL_WEAK, "d = 2.8-2.9",
        rat ++ " (Structural overlap but functional divergence)", 2⟩ := by
  unfold finalize_partial_equivalent
  rw [if_neg (by norm_num), if_neg (by norm_num)]
  rfl

lemma ffe_strong15 (rat : String) :
    finalize_functional_equivalent 0.15 rat =
      ⟨0.15, .FUNCTIONAL_STRONG, "d = 0.1-0.4",
        rat ++ " (Same practical outcome despite formal differences)", 3⟩ := by
  unfold finalize_functional_equivalent
  rw [if_pos (by norm_num)]
  rfl

lemma ffe_strong35 (rat : String) :
    finalize_functional_equivalent 0.35 rat =
      ⟨0.35, .FUNCTIONAL_STRONG, "d = 0.1-0.4",
        rat ++ " (Same practical outcome despite formal differences)", 3⟩ := by
  unfold finalize_functional_equivalent
  rw [if_pos (by norm_num)]
  rfl

lemma ffe_standard (rat : String) :
    finalize_functional_equivalent 1 rat =
      ⟨1, .FUNCTIONAL_STANDARD, "d = 0.5-1.4",
        rat ++ " (Same practical outcome despite formal differences)", 3⟩ := by
  unfold finalize_functional_equivalent
  rw [if_neg (by norm_num), if_pos (by norm_num)]
  rfl

lemma ffe_weak (rat : String) :
    finalize_functional_equivalent 1.7 rat =
      ⟨1.7, .FUNCTIONAL_WEAK, "d = 1.5-1.9",
        rat ++ " (Same practical outcome despite formal differences)", 3⟩ := by
  unfold finalize_functional_equivalent
  rw [if_neg (by norm_num), if_neg (by norm_num)]
  rfl

/-- Every result `analyze` returns has one of the four shapes the source can
build: the Gate 1 NO_DIRECT terminal, a Partial finalization of a provisional
score in {2, 2.5, 2.9}, the Gate 3 TOTAL terminal, or a Functional
finalization of a score in {0.15, 0.35, 1, 1.7}. -/
lemma analyze_shapes (a b : LegalConcept) (ft : Option FunctionalTest)
    (r : EquivalenceResult) (h : analyze a b ft = some r) :
    (∃ rat, r = ⟨3, .NO_DIRECT, "d = 3.0", rat, 1⟩) ∨
    (∃ s rat, (s = 2 ∨ s = 2.5 ∨ s = 2.9) ∧ r = finalize_partial_equivalent s rat) ∨
    (∃ rat, r = ⟨0, .TOTAL, "d = 0.0", rat, 3⟩) ∨
    (∃ s rat, (s = 0.15 ∨ s = 0.35 ∨ s = 1 ∨ s = 1.7) ∧
      r = finalize_functional_equivalent s rat) := by
  rcases step1_cases a b with h1 | ⟨rat, h1⟩ | ⟨s, m, t, rat, h1, hs⟩
  · rw [step1_none_analyze a b ft h1] at h
    exact absurd h (by simp)
  · rw [analyze_no_direct a b 3 rat h1 ft] at h
    exact Or.inl ⟨rat, (Option.some.injEq _ _ ▸ h).symm⟩
  · rcases ft with _ | ft'
    · rw [analyze_partial_no_ft a b s m t rat h1] at h
      exact Or.inr (Or.inl ⟨s, rat, hs, (Option.some.injEq _ _ ▸ h).symm⟩)
    · rcases h2v : (step2_same_outcome_filter ft').1 with ⟨rat2⟩ | ⟨fs, st, iv, rat2⟩
      · rw [analyze_diverge a b s m t rat ft' rat2 h1 h2v] at h
        exact Or.inr (Or.inl ⟨s, rat2, hs, (Option.some.injEq _ _ ▸ h).symm⟩)
      · have hfs := step2_converge_inv ft' fs st iv rat2 h2v
        rcases h3v : (step3_perfect_substitution_filter a b ft').1 with ⟨ps, rat3⟩
        cases ps
        · rw [analyze_functional a b s m t rat ft' fs st iv rat2 rat3 h1 h2v h3v] at h
          exact Or.inr (Or.inr (Or.inr ⟨fs, rat2, hfs, (Option.some.injEq _ _ ▸ h).symm⟩))
        · rw [analyze_total a b s m t rat ft' fs st iv rat2 rat3 h1 h2v h3v] at h
          exact Or.inr (Or.inr (Or.inl ⟨rat3, (Option.some.injEq _ _ ▸ h).symm⟩))


lemma containsStr_base (p sub q : String) : ContainsStr (p ++ sub ++ q) sub :=
  ⟨p, q, rfl⟩

lemma containsStr_append_right (s sub t : String) (h : ContainsStr s sub) :
    ContainsStr (s ++ t) sub := by
  obtain ⟨p, q, hp⟩ := h
  exact ⟨p, q ++ t, by rw [hp, String.append_assoc]⟩

lemma containsStr_append_left (t s sub : String) (h : ContainsStr s sub) :
    ContainsStr (t ++ s) sub := by
  obtain ⟨p, q, hp⟩ := h
  exact ⟨t ++ p, q, by rw [hp, ← String.append_assoc, ← String.append_assoc]⟩

lemma roundHalfEven_intCast (k : ℤ) : roundHalfEven (k : ℚ) = k := by
  unfold roundHalfEven
  rw [Int.floor_intCast]
  norm_num

lemma format1f_eval (q : ℚ) (k : ℤ) (hk : q * 10 = (k : ℚ)) :
    format1f q = (if k < 0 then "-" else "") ++ toString (k.natAbs / 10) ++ "." ++
      toString (k.natAbs % 10) := by
  unfold format1f
  rw [hk, roundHalfEven_intCast]

/-- C9: the convergence vector is the difference of the two distances, and
the interpretation string is classified by the vector's sign and magnitude:
positive vectors report Convergence, negative ones Divergence, zero reports
Stable, with High magnitude at absolute value at least 1.5 and Incremental
below. -/
theorem claim_C9_convergence_vector (d_t1 d_t2 v : ℚ) (interp : String)
    (h : calculate_convergence_vector d_t1 d_t2 = (v, interp)) :
    v = d_t1 - d_t2 ∧
    (0 < v → ContainsStr interp "Convergence" ∧
      (1.5 ≤ |v| → ContainsStr interp "High") ∧
      (|v| < 1.5 → ContainsStr interp "Incremental")) ∧
    (v < 0 → ContainsStr interp "Divergence" ∧
      (1.5 ≤ |v| → ContainsStr interp "High") ∧
      (|v| < 1.5 → ContainsStr interp "Incremental")) ∧
    (v = 0 → ContainsStr interp "Stable") := by
  unfold calculate_convergence_vector at h
  dsimp only at h
  split at h
  · rename_i hpos
    rw [Prod.mk.injEq] at h
    obtain ⟨hv, hi⟩ := h
    subst hi
    refine ⟨hv.symm, fun _ => ⟨?_, ?_, ?_⟩, fun hneg => absurd hpos (by rw [← hv] at hneg; linarith),
      fun h0 => absurd hpos (by rw [← hv] at h0; rw [h0]; norm_num)⟩
    · refine containsStr_append_right _ _ _ (containsStr_append_right _ _ _
        (containsStr_append_right _ _ _ (containsStr_append_right _ _ _ ?_)))
      exact ⟨"Legal ", " (+", rfl⟩
    · intro h15
      rw [← hv] at h15
      rw [if_pos (ge_iff_le.2 h15)]
      exact containsStr_append_right _ _ _ (containsStr_append_left _ _ _ ⟨"", "", rfl⟩)
    · intro h15
      rw [← hv] at h15
      rw [if_neg (by rw [ge_iff_le]; exact not_le.2 h15)]
      exact containsStr_append_right _ _ _ (containsStr_append_left _ _ _ ⟨"", "", rfl⟩)
  · split at h
    · rename_i hnpos hneg
      rw [Prod.mk.injEq] at h
      obtain ⟨hv, hi⟩ := h
      subst hi
      refine ⟨hv.symm, fun hpos => absurd hpos (by rw [← hv]; exact hnpos),
        fun _ => ⟨?_, ?_, ?_⟩,
        fun h0 => absurd hneg (by rw [← hv] at h0; rw [h0]; norm_num)⟩
      · refine containsStr_append_right _ _ _ (containsStr_append_right _ _ _
          (containsStr_append_right _ _ _ (containsStr_append_right _ _ _ ?_)))
        exact ⟨"Legal ", " (", rfl⟩
      · intro h15
        rw [← hv] at h15
        rw [if_pos (ge_iff_le.2 h15)]
        exact containsStr_append_right _ _ _ (containsStr_append_left _ _ _ ⟨"", "", rfl⟩)
      · intro h15
        rw [← hv] at h15
        rw [if_neg (by rw [ge_iff_le]; exact not_le.2 h15)]
        exact containsStr_append_right _ _ _ (containsStr_append_left _ _ _ ⟨"", "", rfl⟩)
    · rename_i hnpos hnneg
      rw [Prod.mk.injEq] at h
      obtain ⟨hv, hi⟩ := h
      subst hi
      refine ⟨hv.symm, fun hpos => absurd hpos (by rw [← hv]; exact hnpos),
        fun hneg => absurd hneg (by rw [← hv]; exact hnneg),
        fun _ => ⟨"", " Equivalence (0.0) - No net change or Feature Shift", rfl⟩⟩



lemma ccv_example1 :
    calculate_convergence_vector 2.5 1 =
      (1.5, "Legal Convergence (+1.5) - High harmonization") := by
  unfold calculate_convergence_vector
  dsimp only
  rw [if_pos (by norm_num : (2.5 : ℚ) - 1 > 0),
    if_pos (by rw [ge_iff_le, abs_of_pos (by norm_num : (0 : ℚ) < 2.5 - 1)]; norm_num :
      |(2.5 : ℚ) - 1| ≥ 1.5)]
  have hf : format1f ((2.5 : ℚ) - 1) = "1.5" := by
    rw [format1f_eval _ 15 (by norm_num)]
    rfl
  rw [Prod.mk.injEq]
  exact ⟨by norm_num, by rw [hf]; decide⟩

lemma ccv_example2 :
    calculate_convergence_vector 1 1 =
      (0, "Stable Equivalence (0.0) - No net change or Feature Shift") := by
  unfold calculate_convergence_vector
  dsimp only
  rw [if_neg (by norm_num : ¬ ((1 : ℚ) - 1 > 0)), if_neg (by norm_num : ¬ ((1 : ℚ) - 1 < 0))]
  rw [Prod.mk.injEq]
  exact ⟨by norm_num, rfl⟩

/-- C9 witness: the specification's two worked examples, with the containment
facts obtained from the theorem. -/
theorem claim_C9_witness :
    calculate_convergence_vector 2.5 1 =
      (1.5, "Legal Convergence (+1.5) - High harmonization") ∧
    ContainsStr "Legal Convergence (+1.5) - High harmonization" "Convergence" ∧
    ContainsStr "Legal Convergence (+1.5) - High harmonization" "High" ∧
    calculate_convergence_vector 1 1 =
      (0, "Stable Equivalence (0.0) - No net change or Feature Shift") ∧
    ContainsStr "Stable Equivalence (0.0) - No net change or Feature Shift" "Stable" := by
  have h1 := claim_C9_convergence_vector 2.5 1 1.5
    "Legal Convergence (+1.5) - High harmonization" ccv_example1
  have h2 := claim_C9_convergence_vector 1 1 0
    "Stable Equivalence (0.0) - No net change or Feature Shift" ccv_example2
  have hp : (0 : ℚ) < 1.5 := by norm_num
  refine ⟨ccv_example1, (h1.2.1 hp).1, (h1.2.1 hp).2.1 ?_, ccv_example2,
    h2.2.2.2 rfl⟩
  rw [abs_of_pos hp]


/-- C1: every result analyze returns has its distance score inside the
sub-range the specification's tables fix for the result's level. -/
theorem claim_C1_distance_in_level_range (a b : LegalConcept)
    (ft : Option FunctionalTest) (r : EquivalenceResult)
    (h : analyze a b ft = some r) :
    scoreInLevelRange r.level r.distance_score := by
  rcases analyze_shapes a b ft r h with ⟨rat, hr⟩ | ⟨s, rat, hs, hr⟩ | ⟨rat, hr⟩ |
    ⟨s, rat, hs, hr⟩
  · subst hr
    simp [scoreInLevelRange]
  · rcases hs with h2 | h2 | h2 <;> subst h2 <;> subst hr
    · rw [fpe_strong]
      exact ⟨by norm_num, by norm_num⟩
    · rw [fpe_standard]
      exact ⟨by norm_num, by norm_num⟩
    · rw [fpe_weak]
      exact ⟨by norm_num, by norm_num⟩
  · subst hr
    simp [scoreInLevelRange]
  · rcases hs with h2 | h2 | h2 | h2 <;> subst h2 <;> subst hr
    · rw [ffe_strong15]
      exact ⟨by norm_num, by norm_num⟩
    · rw [ffe_strong35]
      exact ⟨by norm_num, by norm_num⟩
    · rw [ffe_standard]
      exact ⟨by norm_num, by norm_num⟩
    · rw [ffe_weak]
      exact ⟨by norm_num, by norm_num⟩

lemma step1_concrete_xp :
    (step1_core_feature_filter ⟨"A", "J1", ["x"], "p"⟩ ⟨"B", "J2", ["x"], "p"⟩).1 =
      some (.PARTIAL 2.5 1 true
        "Standard feature overlap detected (1 structural + teleological alignment)") := by
  unfold step1_core_feature_filter
  dsimp only
  rw [if_pos (rfl : pyLower "p" = pyLower "p")]
  dsimp only
  rw [if_neg (by decide), if_neg (by decide), if_pos (by decide)]
  dsimp only
  simp only [Option.some.injEq, Step1Result.PARTIAL.injEq]
  exact ⟨trivial, by decide, trivial, by decide⟩

/-- C1 witness: a concrete analysis whose PARTIAL_STANDARD result sits in the
2.2-2.7 band. -/
theorem claim_C1_witness :
    analyze ⟨"A", "J1", ["x"], "p"⟩ ⟨"B", "J2", ["x"], "p"⟩ none = some
      ⟨2.5, .PARTIAL_STANDARD, "d = 2.2-2.7",
        "Standard feature overlap detected (1 structural + teleological alignment)" ++
          " (Structural overlap but functional divergence)",
        2⟩ ∧
    scoreInLevelRange EquivalenceLevel.PARTIAL_STANDARD 2.5 := by
  have h : analyze ⟨"A", "J1", ["x"], "p"⟩ ⟨"B", "J2", ["x"], "p"⟩ none = some
      ⟨2.5, .PARTIAL_STANDARD, "d = 2.2-2.7",
        "Standard feature overlap detected (1 structural + teleological alignment)" ++
          " (Structural overlap but functional divergence)",
        2⟩ := by
    rw [analyze_partial_no_ft _ _ _ _ _ _ step1_concrete_xp, fpe_standard]
  exact ⟨h, claim_C1_distance_in_level_range _ _ _ _ h⟩


lemma overlap_eq (obj_a obj_b : String) (ia m : ℕ)
    (hi : ((pySplit (pyLower obj_a)).toFinset ∩ (pySplit (pyLower obj_b)).toFinset).card = ia)
    (hm : max (pySplit (pyLower obj_a)).toFinset.card
      (pySplit (pyLower obj_b)).toFinset.card = m)
    (hm0 : ¬ m = 0) :
    objectives_substantially_overlap obj_a obj_b =
      some (decide (((ia : ℚ) / (m : ℚ)) > 1/2)) := by
  unfold objectives_substantially_overlap
  dsimp only
  rw [hi, hm, if_neg hm0]

/-- C3: with no shared constituent element, lowercased objectives unequal and
the overlap heuristic evaluating to false, analyze is NO_DIRECT with distance
3.0, interval "d = 3.0" and step 1, whatever FunctionalTest is passed. -/
theorem claim_C3_no_direct (a b : LegalConcept)
    (h0 : a.constituent_elements.toFinset ∩ b.constituent_elements.toFinset = ∅)
    (hne : pyLower a.regulatory_objective ≠ pyLower b.regulatory_objective)
    (hov : objectives_substantially_overlap a.regulatory_objective
      b.regulatory_objective = some false)
    (ft : Option FunctionalTest) :
    analyze a b ft = some
      { distance_score := 3, level := .NO_DIRECT, confidence_interval := "d = 3.0",
        rationale := "Concepts share neither structural elements nor regulatory objectives.",
        step_reached := 1 } := by
  have h1 : (step1_core_feature_filter a b).1 = some (.NO_DIRECT 3
      "Concepts share neither structural elements nor regulatory objectives.") := by
    unfold step1_core_feature_filter
    dsimp only
    rw [if_neg hne, hov]
    dsimp only
    rw [if_pos ⟨by rw [h0]; exact Finset.card_empty, rfl⟩]
  exact analyze_no_direct a b 3 _ h1 ft

/-- C3 witness: a concrete disjoint pair, confirmed NO_DIRECT with and
without a FunctionalTest. -/
theorem claim_C3_witness :
    analyze ⟨"A", "J1", ["x"], "protect one"⟩ ⟨"B", "J2", ["y"], "regulate other things"⟩
        none = some
      { distance_score := 3, level := .NO_DIRECT, confidence_interval := "d = 3.0",
        rationale := "Concepts share neither structural elements nor regulatory objectives.",
        step_reached := 1 } ∧
    analyze ⟨"A", "J1", ["x"], "protect one"⟩ ⟨"B", "J2", ["y"], "regulate other things"⟩
        (some ⟨"fp", 0.97, "low", 1⟩) = some
      { distance_score := 3, level := .NO_DIRECT, confidence_interval := "d = 3.0",
        rationale := "Concepts share neither structural elements nor regulatory objectives.",
        step_reached := 1 } := by
  have hov : objectives_substantially_overlap "protect one" "regulate other things" =
      some false := by
    rw [overlap_eq "protect one" "regulate other things" 0 3 (by decide) (by decide)
      (by decide)]
    rw [decide_eq_false (by push_cast; norm_num :
      ¬ (((0 : ℕ) : ℚ) / ((3 : ℕ) : ℚ) > 1/2))]
  exact ⟨claim_C3_no_direct ⟨"A", "J1", ["x"], "protect one"⟩
      ⟨"B", "J2", ["y"], "regulate other things"⟩ (by decide) (by decide) hov none,
    claim_C3_no_direct ⟨"A", "J1", ["x"], "protect one"⟩
      ⟨"B", "J2", ["y"], "regulate other things"⟩ (by decide) (by decide) hov
      (some ⟨"fp", 0.97, "low", 1⟩)⟩

/-- C4: when the two concepts agree on constituent elements and regulatory
objective, a FunctionalTest of reliability 0.97, low friction and iteration
threshold 1 drives analyze to the TOTAL terminal: distance 0.0, step 3. -/
theorem claim_C4_total (a b : LegalConcept) (fp : String)
    (he : a.constituent_elements = b.constituent_elements)
    (ho : a.regulatory_objective = b.regulatory_objective) :
    analyze a b (some ⟨fp, 0.97, "low", 1⟩) = some
      { distance_score := 0, level := .TOTAL, confidence_interval := "d = 0.0",
        rationale := "Concepts are superimposable - perfect one-to-one match in all dimensions",
        step_reached := 3 } := by
  have hlow : pyLower a.regulatory_objective = pyLower b.regulatory_objective := by rw [ho]
  have h1 : ∃ s m t rat, (step1_core_feature_filter a b).1 = some (.PARTIAL s m t rat) := by
    unfold step1_core_feature_filter
    dsimp only
    rw [if_pos hlow]
    dsimp only
    rw [if_neg (by simp)]
    exact ⟨_, _, _, _, rfl⟩
  obtain ⟨s, m, t, rat, h1⟩ := h1
  obtain ⟨rat2, h2⟩ := step2_c1 ⟨fp, 0.97, "low", 1⟩ (by norm_num) ⟨by norm_num, rfl, rfl⟩
  have h3 := step3_perfect a b ⟨fp, 0.97, "low", 1⟩ (by rw [he]) ho rfl
  exact analyze_total a b s m t rat _ 0.15 _ _ rat2 _ h1 h2 h3

/-- C4 witness: identical concepts with empty constituent-element lists. -/
theorem claim_C4_witness :
    analyze ⟨"Habeas", "J1", [], "liberty"⟩ ⟨"Habeas", "J2", [], "liberty"⟩
        (some ⟨"detention", 0.97, "low", 1⟩) = some
      { distance_score := 0, level := .TOTAL, confidence_interval := "d = 0.0",
        rationale := "Concepts are superimposable - perfect one-to-one match in all dimensions",
        step_reached := 3 } :=
  claim_C4_total ⟨"Habeas", "J1", [], "liberty"⟩ ⟨"Habeas", "J2", [], "liberty"⟩
    "detention" rfl rfl


/-- C5: past Gate 1, a reliability-0.96 low-friction N=1 test converges into
the Strong Functional tier, but Gate 3's exact case-sensitive objective check
fails whenever the objective strings differ at all, so the result is
FUNCTIONAL_STRONG at 0.15 with interval "d = 0.1-0.4", never TOTAL. -/
theorem claim_C5_strong_functional_not_total (a b : LegalConcept) (s : ℚ) (m : ℕ)
    (t : Bool) (rat fp : String)
    (h1 : (step1_core_feature_filter a b).1 = some (.PARTIAL s m t rat))
    (hne : a.regulatory_objective ≠ b.regulatory_objective) :
    ∃ res, analyze a b (some ⟨fp, 0.96, "low", 1⟩) = some res ∧
      res.level = .FUNCTIONAL_STRONG ∧ res.distance_score = 0.15 ∧
      res.confidence_interval = "d = 0.1-0.4" ∧ res.level ≠ .TOTAL := by
  obtain ⟨rat2, h2⟩ := step2_c1 ⟨fp, 0.96, "low", 1⟩ (by norm_num) ⟨by norm_num, rfl, rfl⟩
  have h3 := step3_not_perfect_of_obj_ne a b ⟨fp, 0.96, "low", 1⟩ hne
  refine ⟨_, analyze_functional a b s m t rat _ 0.15 _ _ rat2 _ h1 h2 h3, ?_⟩
  rw [ffe_strong15]
  exact ⟨rfl, rfl, rfl, by simp⟩

lemma step1_concrete_case :
    (step1_core_feature_filter ⟨"A", "J1", ["x"], "Protect"⟩
        ⟨"B", "J2", ["x"], "protect"⟩).1 =
      some (.PARTIAL 2.5 1 true
        "Standard feature overlap detected (1 structural + teleological alignment)") := by
  unfold step1_core_feature_filter
  dsimp only
  rw [if_pos (by decide : pyLower "Protect" = pyLower "protect")]
  dsimp only
  rw [if_neg (by decide), if_neg (by decide), if_pos (by decide)]
  dsimp only
  simp only [Option.some.injEq, Step1Result.PARTIAL.injEq]
  exact ⟨trivial, by decide, trivial, by decide⟩

/-- C5 witness: objectives equal only up to case, one shared element. -/
theorem claim_C5_witness :
    ∃ res, analyze ⟨"A", "J1", ["x"], "Protect"⟩ ⟨"B", "J2", ["x"], "protect"⟩
        (some ⟨"fp", 0.96, "low", 1⟩) = some res ∧
      res.level = .FUNCTIONAL_STRONG ∧ res.distance_score = 0.15 ∧
      res.confidence_interval = "d = 0.1-0.4" ∧ res.level ≠ .TOTAL :=
  claim_C5_strong_functional_not_total ⟨"A", "J1", ["x"], "Protect"⟩
    ⟨"B", "J2", ["x"], "protect"⟩ 2.5 1 true
    "Standard feature overlap detected (1 structural + teleological alignment)" "fp"
    step1_concrete_case (by decide)

/-- C6: when Gate 1 classifies PARTIAL and no FunctionalTest is supplied,
analyze finalizes Partial at step 2, tiered by the shared-element count:
at least 3 gives PARTIAL_STRONG at 2.0, one or two give PARTIAL_STANDARD at
2.5, zero (teleology-only) gives PARTIAL_WEAK at 2.9. -/
theorem claim_C6_partial_tiers (a b : LegalConcept) (s : ℚ) (m : ℕ) (t : Bool)
    (rat : String)
    (h1 : (step1_core_feature_filter a b).1 = some (.PARTIAL s m t rat)) :
    ∃ res, analyze a b none = some res ∧ res.step_reached = 2 ∧
      (3 ≤ (a.constituent_elements.toFinset ∩ b.constituent_elements.toFinset).card →
        res.level = .PARTIAL_STRONG ∧ res.distance_score = 2) ∧
      (1 ≤ (a.constituent_elements.toFinset ∩ b.constituent_elements.toFinset).card ∧
        (a.constituent_elements.toFinset ∩ b.constituent_elements.toFinset).card < 3 →
        res.level = .PARTIAL_STANDARD ∧ res.distance_score = 2.5) ∧
      ((a.constituent_elements.toFinset ∩ b.constituent_elements.toFinset).card = 0 →
        res.level = .PARTIAL_WEAK ∧ res.distance_score = 2.9) := by
  obtain ⟨hm, hs⟩ := step1_partial_inv a b s m t rat h1
  refine ⟨_, analyze_partial_no_ft a b s m t rat h1, rfl, ?_, ?_, ?_⟩
  · intro h3
    rw [← hm] at h3
    rw [show s = 2 by rw [hs, if_pos h3], fpe_strong]
    exact ⟨rfl, rfl⟩
  · intro h12
    rw [← hm] at h12
    rw [show s = 2.5 by rw [hs, if_neg (by omega), if_pos h12.1], fpe_standard]
    exact ⟨rfl, rfl⟩
  · intro h0
    rw [← hm] at h0
    rw [show s = 2.9 by rw [hs, if_neg (by omega), if_neg (by omega)], fpe_weak]
    exact ⟨rfl, rfl⟩

/-- C6 witness: one shared element and no FunctionalTest gives
PARTIAL_STANDARD at 2.5. -/
theorem claim_C6_witness :
    ∃ res, analyze ⟨"A", "J1", ["x"], "p"⟩ ⟨"B", "J2", ["x"], "p"⟩ none = some res ∧
      res.step_reached = 2 ∧ res.level = .PARTIAL_STANDARD ∧
      res.distance_score = 2.5 := by
  obtain ⟨res, ha, hstep, -, hmid, -⟩ :=
    claim_C6_partial_tiers ⟨"A", "J1", ["x"], "p"⟩ ⟨"B", "J2", ["x"], "p"⟩ 2.5 1 true
      "Standard feature overlap detected (1 structural + teleological alignment)"
      step1_concrete_xp
  exact ⟨res, ha, hstep, (hmid (by decide)).1, (hmid (by decide)).2⟩


/-- C2: at reliability at least 0.85, Gate 2 converges and scores by the
source's first-match precedence; in particular a rate above 0.95 with
standard friction, or with low friction but threshold at least 2, falls to
the Standard score 1.0, and rates of exactly 0.90 or 0.85 score 1.7. -/
theorem claim_C2_gate2_precedence (ft : FunctionalTest)
    (h : 0.85 ≤ ft.reliability_rate) :
    (∃ st iv rat, (step2_same_outcome_filter ft).1 =
      .converge
        (if ft.reliability_rate > 0.95 ∧ ft.procedural_friction = "low" ∧
            ft.iteration_threshold = 1 then (0.15 : ℚ)
         else if ft.reliability_rate > 0.95 ∧ ft.procedural_friction = "high" then 0.35
         else if ft.reliability_rate > 0.90 then 1 else 1.7) st iv rat) ∧
    (ft.reliability_rate > 0.95 → ft.procedural_friction = "standard" →
      ∃ st iv rat, (step2_same_outcome_filter ft).1 = .converge 1 st iv rat) ∧
    (ft.reliability_rate > 0.95 → ft.procedural_friction = "low" →
      2 ≤ ft.iteration_threshold →
      ∃ st iv rat, (step2_same_outcome_filter ft).1 = .converge 1 st iv rat) ∧
    (ft.reliability_rate = 0.90 →
      ∃ st iv rat, (step2_same_outcome_filter ft).1 = .converge 1.7 st iv rat) ∧
    (ft.reliability_rate = 0.85 →
      ∃ st iv rat, (step2_same_outcome_filter ft).1 = .converge 1.7 st iv rat) := by
  have hge : ¬ ft.reliability_rate < 0.85 := not_lt.2 h
  refine ⟨?_, ?_, ?_, ?_, ?_⟩
  · by_cases h1 : ft.reliability_rate > 0.95 ∧ ft.procedural_friction = "low" ∧
        ft.iteration_threshold = 1
    · rw [if_pos h1]
      obtain ⟨rat, hr⟩ := step2_c1 ft hge h1
      exact ⟨_, _, rat, hr⟩
    · rw [if_neg h1]
      by_cases h2 : ft.reliability_rate > 0.95 ∧ ft.procedural_friction = "high"
      · rw [if_pos h2]
        obtain ⟨rat, hr⟩ := step2_c2 ft hge h1 h2
        exact ⟨_, _, rat, hr⟩
      · rw [if_neg h2]
        by_cases h3 : ft.reliability_rate > 0.90
        · rw [if_pos h3]
          obtain ⟨rat, hr⟩ := step2_c3 ft hge h1 h2 h3
          exact ⟨_, _, rat, hr⟩
        · rw [if_neg h3]
          obtain ⟨rat, hr⟩ := step2_c4 ft hge h1 h2 h3
          exact ⟨_, _, rat, hr⟩
  · intro h95 hstd
    obtain ⟨rat, hr⟩ := step2_c3 ft hge
      (by rintro ⟨-, hl, -⟩; rw [hstd] at hl; exact absurd hl (by decide))
      (by rintro ⟨-, hh⟩; rw [hstd] at hh; exact absurd hh (by decide))
      (by linarith)
    exact ⟨_, _, rat, hr⟩
  · intro h95 hlow hiter
    obtain ⟨rat, hr⟩ := step2_c3 ft hge
      (by rintro ⟨-, -, hi⟩; omega)
      (by rintro ⟨-, hh⟩; rw [hlow] at hh; exact absurd hh (by decide))
      (by linarith)
    exact ⟨_, _, rat, hr⟩
  · intro h90
    obtain ⟨rat, hr⟩ := step2_c4 ft hge
      (by rintro ⟨h95, -, -⟩; rw [h90] at h95; exact absurd h95 (by norm_num))
      (by rintro ⟨h95, -⟩; rw [h90] at h95; exact absurd h95 (by norm_num))
      (by rw [h90]; norm_num)
    exact ⟨_, _, rat, hr⟩
  · intro h85
    obtain ⟨rat, hr⟩ := step2_c4 ft hge
      (by rintro ⟨h95, -, -⟩; rw [h85] at h95; exact absurd h95 (by norm_num))
      (by rintro ⟨h95, -⟩; rw [h85] at h95; exact absurd h95 (by norm_num))
      (by rw [h85]; norm_num)
    exact ⟨_, _, rat, hr⟩

/-- C2 witness: a 0.96-reliability standard-friction test converges at the
Standard score 1.0, and a 0.85 test at the Weak score 1.7. -/
theorem claim_C2_witness :
    (0.85 : ℚ) ≤ 0.96 ∧
    (∃ st iv rat, (step2_same_outcome_filter ⟨"fp", 0.96, "standard", 1⟩).1 =
      .converge 1 st iv rat) ∧
    (∃ st iv rat, (step2_same_outcome_filter ⟨"fp", 0.85, "low", 1⟩).1 =
      .converge 1.7 st iv rat) := by
  have hA := claim_C2_gate2_precedence ⟨"fp", 0.96, "standard", 1⟩ (by norm_num)
  have hB := claim_C2_gate2_precedence ⟨"fp", 0.85, "low", 1⟩ (by norm_num)
  exact ⟨by norm_num, hA.2.1 (by norm_num) rfl, hB.2.2.2.2 rfl⟩


lemma analyze_isSome_of_step1 (a b : LegalConcept) (ft : Option FunctionalTest)
    (s1 : Step1Result) (h1 : (step1_core_feature_filter a b).1 = some s1) :
    (analyze a b ft).isSome = true := by
  cases s1 with
  | NO_DIRECT sc rat => rw [analyze_no_direct a b sc rat h1 ft]; rfl
  | PARTIAL s m t rat =>
    cases ft with
    | none => rw [analyze_partial_no_ft a b s m t rat h1]; rfl
    | some ft' =>
      rcases h2 : (step2_same_outcome_filter ft').1 with ⟨rat2⟩ | ⟨fs, st, iv, rat2⟩
      · rw [analyze_diverge a b s m t rat ft' rat2 h1 h2]; rfl
      · rcases h3 : (step3_perfect_substitution_filter a b ft').1 with ⟨ps, rat3⟩
        cases ps
        · rw [analyze_functional a b s m t rat ft' fs st iv rat2 rat3 h1 h2 h3]; rfl
        · rw [analyze_total a b s m t rat ft' fs st iv rat2 rat3 h1 h2 h3]; rfl

/-- C7 counterexample: with both regulatory objectives tokenizing to empty
token sets (" " and "") and unequal after lowercasing, the overlap
heuristic's division by zero raises, so analyze returns no structured result
(modelled as `none`). -/
theorem claim_C7_counterexample :
    analyze ⟨"A", "J1", [], " "⟩ ⟨"B", "J2", [], ""⟩ none = none := by
  have h1 : (step1_core_feature_filter ⟨"A", "J1", [], " "⟩ ⟨"B", "J2", [], ""⟩).1 =
      none := by
    unfold step1_core_feature_filter
    dsimp only
    rw [if_neg (by decide : ¬ pyLower " " = pyLower "")]
    rw [show objectives_substantially_overlap " " "" = none by
      unfold objectives_substantially_overlap
      dsimp only
      rw [if_pos (by decide)]]
  exact step1_none_analyze _ _ none h1

/-- C7 amended: analyze returns a structured result whenever the overlap
heuristic cannot hit its zero divisor: the lowercased objectives are equal,
or at least one objective tokenizes to a nonempty token set. -/
theorem claim_C7_amended_no_raise (a b : LegalConcept) (ft : Option FunctionalTest)
    (h : pyLower a.regulatory_objective = pyLower b.regulatory_objective ∨
      pySplit (pyLower a.regulatory_objective) ≠ [] ∨
      pySplit (pyLower b.regulatory_objective) ≠ []) :
    (analyze a b ft).isSome = true := by
  have hstep1 : ∃ s1, (step1_core_feature_filter a b).1 = some s1 := by
    unfold step1_core_feature_filter
    dsimp only
    by_cases hl : pyLower a.regulatory_objective = pyLower b.regulatory_objective
    · rw [if_pos hl]
      dsimp only
      split
      · exact ⟨_, rfl⟩
      · exact ⟨_, rfl⟩
    · rw [if_neg hl]
      have hov : ∃ v, objectives_substantially_overlap a.regulatory_objective
          b.regulatory_objective = some v := by
        unfold objectives_substantially_overlap
        dsimp only
        rw [if_neg ?hmax]
        · exact ⟨_, rfl⟩
        case hmax =>
          rcases h with h | hA | hB
          · exact absurd h hl
          · intro hmax
            rw [Nat.max_eq_zero_iff, Finset.card_eq_zero, Finset.card_eq_zero,
              List.toFinset_eq_empty_iff, List.toFinset_eq_empty_iff] at hmax
            exact hA hmax.1
          · intro hmax
            rw [Nat.max_eq_zero_iff, Finset.card_eq_zero, Finset.card_eq_zero,
              List.toFinset_eq_empty_iff, List.toFinset_eq_empty_iff] at hmax
            exact hB hmax.2
      obtain ⟨v, hov⟩ := hov
      rw [hov]
      dsimp only
      split
      · exact ⟨_, rfl⟩
      · exact ⟨_, rfl⟩
  obtain ⟨s1, h1⟩ := hstep1
  exact analyze_isSome_of_step1 a b ft s1 h1

/-- C7 witness: a pair with equal objectives analyzes to a structured result
both with and without a FunctionalTest. -/
theorem claim_C7_witness :
    (analyze ⟨"A", "J1", ["x"], "p"⟩ ⟨"B", "J2", ["x"], "p"⟩ none).isSome = true ∧
    (analyze ⟨"A", "J1", ["x"], "p"⟩ ⟨"B", "J2", ["x"], "p"⟩
      (some ⟨"fp", 0.5, "low", 1⟩)).isSome = true :=
  ⟨claim_C7_amended_no_raise ⟨"A", "J1", ["x"], "p"⟩ ⟨"B", "J2", ["x"], "p"⟩ none
      (Or.inl rfl),
   claim_C7_amended_no_raise ⟨"A", "J1", ["x"], "p"⟩ ⟨"B", "J2", ["x"], "p"⟩
      (some ⟨"fp", 0.5, "low", 1⟩) (Or.inl rfl)⟩


lemma analyzeWithLog_eq_diverge (a b : LegalConcept) (s : ℚ) (m : ℕ) (t : Bool)
    (rat : String) (ft : FunctionalTest) (rat2 : String)
    (h1 : (step1_core_feature_filter a b).1 = some (.PARTIAL s m t rat))
    (h2 : (step2_same_outcome_filter ft).1 = .diverge rat2) :
    analyzeWithLog a b (some ft) =
      (some (finalize_partial_equivalent s rat2),
       (step1_core_feature_filter a b).2 ++ (step2_same_outcome_filter ft).2) := by
  unfold analyzeWithLog
  dsimp only
  rw [h1]
  dsimp only
  rw [h2]

lemma step2_log_of_lt (ft : FunctionalTest) (h : ft.reliability_rate < 0.85) :
    (step2_same_outcome_filter ft).2 =
      ["\n=== STEP 2: FUNCTIONAL EQUIVALENCY TEST ===",
       "Fact pattern: " ++ ft.fact_pattern,
       "Reliability rate: " ++ format1f (ft.reliability_rate * 100) ++ "%",
       "Procedural friction: " ++ ft.procedural_friction] ++
      ["RESULT: Outcomes diverge (reliability < 85%)"] := by
  unfold step2_same_outcome_filter
  dsimp only
  rw [if_pos h]

lemma step2_eq_of_fields (ft ft' : FunctionalTest)
    (hrate : ft'.reliability_rate = ft.reliability_rate)
    (hfp : ft'.fact_pattern = ft.fact_pattern)
    (hfric : ft'.procedural_friction = ft.procedural_friction)
    (hlt : ft.reliability_rate < 0.85) :
    step2_same_outcome_filter ft' = step2_same_outcome_filter ft := by
  unfold step2_same_outcome_filter
  dsimp only
  rw [hrate, hfp, hfric, if_pos hlt, if_pos hlt]

/-- C8 counterexample: with reliability 0.5 (below threshold), two tests that
differ only in procedural friction leave the engine with different analysis
logs — the log records the friction value even on the divergence branch, so
the engine's state is not unaffected by the friction field. -/
theorem claim_C8_counterexample :
    (analyzeWithLog ⟨"A", "J1", ["x"], "p"⟩ ⟨"B", "J2", ["x"], "p"⟩
        (some ⟨"fp", 0.5, "low", 1⟩)).2 ≠
    (analyzeWithLog ⟨"A", "J1", ["x"], "p"⟩ ⟨"B", "J2", ["x"], "p"⟩
        (some ⟨"fp", 0.5, "high", 1⟩)).2 := by
  have hL := analyzeWithLog_eq_diverge ⟨"A", "J1", ["x"], "p"⟩ ⟨"B", "J2", ["x"], "p"⟩
    2.5 1 true "Standard feature overlap detected (1 structural + teleological alignment)"
    ⟨"fp", 0.5, "low", 1⟩ _ step1_concrete_xp
    (step2_diverge ⟨"fp", 0.5, "low", 1⟩ (by norm_num))
  have hH := analyzeWithLog_eq_diverge ⟨"A", "J1", ["x"], "p"⟩ ⟨"B", "J2", ["x"], "p"⟩
    2.5 1 true "Standard feature overlap detected (1 structural + teleological alignment)"
    ⟨"fp", 0.5, "high", 1⟩ _ step1_concrete_xp
    (step2_diverge ⟨"fp", 0.5, "high", 1⟩ (by norm_num))
  rw [congrArg Prod.snd hL, congrArg Prod.snd hH,
    step2_log_of_lt ⟨"fp", 0.5, "low", 1⟩ (by norm_num),
    step2_log_of_lt ⟨"fp", 0.5, "high", 1⟩ (by norm_num)]
  intro heq
  have hB := List.append_cancel_left heq
  simp at hB

/-- C8 amended: below the 0.85 threshold Gate 2 diverges, analyze finalizes
Partial from Gate 1's provisional score at step 2, the returned result is
unaffected by friction and iteration threshold (it depends only on the
reliability rate), and the full engine state is unaffected by the iteration
threshold; the analysis log does, however, record the friction value. -/
theorem claim_C8_below_threshold (a b : LegalConcept) (s : ℚ) (m : ℕ) (t : Bool)
    (rat : String) (ft : FunctionalTest)
    (h1 : (step1_core_feature_filter a b).1 = some (.PARTIAL s m t rat))
    (hlt : ft.reliability_rate < 0.85) :
    ∃ D, (step2_same_outcome_filter ft).1 = .diverge D ∧
      analyze a b (some ft) = some (finalize_partial_equivalent s D) ∧
      (finalize_partial_equivalent s D).step_reached = 2 ∧
      (finalize_partial_equivalent s D).distance_score = s ∧
      ((finalize_partial_equivalent s D).level = .PARTIAL_STRONG ∨
        (finalize_partial_equivalent s D).level = .PARTIAL_STANDARD ∨
        (finalize_partial_equivalent s D).level = .PARTIAL_WEAK) ∧
      (∀ ft' : FunctionalTest, ft'.reliability_rate = ft.reliability_rate →
        analyze a b (some ft') = analyze a b (some ft)) ∧
      (∀ ft' : FunctionalTest, ft'.reliability_rate = ft.reliability_rate →
        ft'.fact_pattern = ft.fact_pattern →
        ft'.procedural_friction = ft.procedural_friction →
        analyzeWithLog a b (some ft') = analyzeWithLog a b (some ft)) := by
  refine ⟨_, step2_diverge ft hlt, analyze_diverge a b s m t rat ft _ h1
    (step2_diverge ft hlt), rfl, rfl, ?_, ?_, ?_⟩
  · obtain ⟨-, hs⟩ := step1_partial_inv a b s m t rat h1
    rcases Nat.lt_or_ge m 3 with h3 | h3
    · rcases Nat.eq_zero_or_pos m with h0 | hp
      · rw [show s = 2.9 by rw [hs, if_neg (by omega), if_neg (by omega)], fpe_weak]
        exact Or.inr (Or.inr rfl)
      · rw [show s = 2.5 by rw [hs, if_neg (by omega), if_pos (by omega)], fpe_standard]
        exact Or.inr (Or.inl rfl)
    · rw [show s = 2 by rw [hs, if_pos h3], fpe_strong]
      exact Or.inl rfl
  · intro ft' hrate
    have hlt' : ft'.reliability_rate < 0.85 := by rw [hrate]; exact hlt
    rw [analyze_diverge a b s m t rat ft' _ h1 (step2_diverge ft' hlt'),
      analyze_diverge a b s m t rat ft _ h1 (step2_diverge ft hlt), hrate]
  · intro ft' hrate hfp hfric
    have hs2 := step2_eq_of_fields ft ft' hrate hfp hfric hlt
    have hlt' : ft'.reliability_rate < 0.85 := by rw [hrate]; exact hlt
    rw [analyzeWithLog_eq_diverge a b s m t rat ft' _ h1 (step2_diverge ft' hlt'),
      analyzeWithLog_eq_diverge a b s m t rat ft _ h1 (step2_diverge ft hlt),
      hs2, hrate]

/-- C8 witness: a negative reliability rate diverges, and the result is
unchanged when friction and iteration threshold change with the rate held. -/
theorem claim_C8_witness :
    (-0.5 : ℚ) < 0.85 ∧
    analyze ⟨"A", "J1", ["x"], "p"⟩ ⟨"B", "J2", ["x"], "p"⟩
        (some ⟨"fp", -0.5, "high", 7⟩) =
      analyze ⟨"A", "J1", ["x"], "p"⟩ ⟨"B", "J2", ["x"], "p"⟩
        (some ⟨"fp", -0.5, "low", 1⟩) ∧
    (∃ D, (step2_same_outcome_filter ⟨"fp", -0.5, "low", 1⟩).1 = .diverge D) := by
  obtain ⟨D, hdiv, -, -, -, -, hinv, -⟩ :=
    claim_C8_below_threshold ⟨"A", "J1", ["x"], "p"⟩ ⟨"B", "J2", ["x"], "p"⟩ 2.5 1 true
      "Standard feature overlap detected (1 structural + teleological alignment)"
      ⟨"fp", -0.5, "low", 1⟩ step1_concrete_xp (by norm_num)
  exact ⟨by norm_num, hinv ⟨"fp", -0.5, "high", 7⟩ rfl, ⟨D, hdiv⟩⟩


/-- C10: the confidence interval string of every analyze result is determined
by (and determines) its level, through the fixed eight-entry table. -/
theorem claim_C10_interval_iff_level (a b : LegalConcept) (ft : Option FunctionalTest)
    (r : EquivalenceResult) (h : analyze a b ft = some r) :
    (r.level = .NO_DIRECT ↔ r.confidence_interval = "d = 3.0") ∧
    (r.level = .TOTAL ↔ r.confidence_interval = "d = 0.0") ∧
    (r.level = .PARTIAL_STRONG ↔ r.confidence_interval = "d = 2.0-2.1") ∧
    (r.level = .PARTIAL_STANDARD ↔ r.confidence_interval = "d = 2.2-2.7") ∧
    (r.level = .PARTIAL_WEAK ↔ r.confidence_interval = "d = 2.8-2.9") ∧
    (r.level = .FUNCTIONAL_STRONG ↔ r.confidence_interval = "d = 0.1-0.4") ∧
    (r.level = .FUNCTIONAL_STANDARD ↔ r.confidence_interval = "d = 0.5-1.4") ∧
    (r.level = .FUNCTIONAL_WEAK ↔ r.confidence_interval = "d = 1.5-1.9") := by
  rcases analyze_shapes a b ft r h with ⟨rat, hr⟩ | ⟨s, rat, hs, hr⟩ | ⟨rat, hr⟩ |
    ⟨s, rat, hs, hr⟩
  · subst hr
    simp
  · rcases hs with h2 | h2 | h2 <;> subst h2 <;> subst hr
    · rw [fpe_strong]
      simp
    · rw [fpe_standard]
      simp
    · rw [fpe_weak]
      simp
  · subst hr
    simp
  · rcases hs with h2 | h2 | h2 | h2 <;> subst h2 <;> subst hr
    · rw [ffe_strong15]
      simp
    · rw [ffe_strong35]
      simp
    · rw [ffe_standard]
      simp
    · rw [ffe_weak]
      simp

/-- C10 witness: the table instantiated on a concrete PARTIAL_STANDARD
result. -/
theorem claim_C10_witness :
    (EquivalenceLevel.PARTIAL_STANDARD = .NO_DIRECT ↔
      ("d = 2.2-2.7" : String) = "d = 3.0") ∧
    (EquivalenceLevel.PARTIAL_STANDARD = .PARTIAL_STANDARD ↔
      ("d = 2.2-2.7" : String) = "d = 2.2-2.7") := by
  have h : analyze ⟨"A", "J1", ["x"], "p"⟩ ⟨"B", "J2", ["x"], "p"⟩ none = some
      ⟨2.5, .PARTIAL_STANDARD, "d = 2.2-2.7",
        "Standard feature overlap detected (1 structural + teleological alignment)" ++
          " (Structural overlap but functional divergence)", 2⟩ := by
    rw [analyze_partial_no_ft _ _ _ _ _ _ step1_concrete_xp, fpe_standard]
  have hc := claim_C10_interval_iff_level _ _ _ _ h
  exact ⟨hc.1, hc.2.2.2.1⟩

end CEE
